import Mathlib

/-!
Verification of the incident temporal-aggregation engine of the
Smart-Accident-And-Alert-System AI service (`app/main.py`).

The detector (YOLO), image codecs and HTTP plumbing are external
collaborators; a frame is therefore represented by the observation the
endpoint extracts from it (counts, collision flag, overlap ratio, time,
and the backend's reply to a potential report).  All numeric values that
are Python floats are embedded as rationals.
-/

namespace SmartAccident

/-- Temporal confirmation threshold for LIVE mode (`ACCIDENT_CONFIRM_FRAMES = 3`). -/
def ACCIDENT_CONFIRM_FRAMES : Nat := 3

/-- Capacity of the raw-frame ring buffer (`FRAME_BUFFER_SIZE = 30`). -/
def FRAME_BUFFER_SIZE : Nat := 30

/-- Cooldown between two reported incidents (`ALERT_COOLDOWN_SECONDS = 60`). -/
def ALERT_COOLDOWN_SECONDS : ℚ := 60

/-- Number of pre-accident snapshots (`PRE_SNAPSHOT_COUNT = 5`). -/
def PRE_SNAPSHOT_COUNT : Nat := 5

/-- Conceptual seconds of post-accident capture (`POST_CAPTURE_SECONDS = 5`). -/
def POST_CAPTURE_SECONDS : Nat := 5

/-- Post-capture frame rate (`POST_CAPTURE_FPS = 5`). -/
def POST_CAPTURE_FPS : Nat := 5

/-- Number of post-accident frames, `POST_CAPTURE_SECONDS * POST_CAPTURE_FPS`. -/
def POST_CAPTURE_FRAMES : Nat := POST_CAPTURE_SECONDS * POST_CAPTURE_FPS

/-- Capacity of the candidate pool, the literal `deque(maxlen=15)`
in `get_camera_state`. -/
def CANDIDATE_POOL_CAP : Nat := 15

/-- Severity tiers used by both the live and the batch path.  The source
uses the strings "MINOR", "MEDIUM", "MAJOR", "CRITICAL". -/
inductive Severity where
  | MINOR
  | MEDIUM
  | MAJOR
  | CRITICAL
deriving DecidableEq

/-- Embeds `severity_order = \x7b"MINOR": 1, "MEDIUM": 2, "MAJOR": 3,
"CRITICAL": 4\x7d` followed by `severity_order.get(severity, 1)`
(the default branch is unreachable since every severity string is a key). -/
def severityScore : Severity → Nat
  | .MINOR => 1
  | .MEDIUM => 2
  | .MAJOR => 3
  | .CRITICAL => 4

/-- Single-frame accident decision of the LIVE path
(`detect_accident`, the `accident_detected_frame` if/elif chain). -/
def frameAccidentFlag (collision_detected : Bool) (vehicle_count person_count total_danger_detections : Nat) : Bool :=
  if collision_detected ∧ 2 ≤ vehicle_count then true
  else if collision_detected ∧ 1 ≤ person_count then true
  else if 1 ≤ vehicle_count ∧ 1 ≤ person_count ∧ 3 ≤ total_danger_detections then true
  else false

/-- Per-frame severity of the LIVE path (`detect_accident`,
the `severity` if/elif chain). -/
def frameSeverity (collision_detected : Bool) (vehicle_count person_count : Nat) : Severity :=
  if collision_detected ∧ 2 ≤ vehicle_count then .CRITICAL
  else if collision_detected ∧ 1 ≤ person_count then .MAJOR
  else if 1 ≤ vehicle_count ∧ 2 ≤ person_count then .MEDIUM
  else .MINOR

/-- Per-frame victim estimate of the LIVE path
(`victims_estimated = person_count if person_count > 0 else 1`). -/
def frameVictims (person_count : Nat) : Nat :=
  if 0 < person_count then person_count else 1

/-- Single-frame accident decision of the BATCH path (`analyze_video`,
the `accident_detected_frame` if/elif chain inside pass 1). -/
def batchAccidentFlag (collision_detected : Bool) (vehicle_count person_count total_danger_detections : Nat) : Bool :=
  if collision_detected ∧ 2 ≤ vehicle_count then true
  else if collision_detected ∧ 1 ≤ person_count then true
  else if 1 ≤ vehicle_count ∧ 1 ≤ person_count ∧ 3 ≤ total_danger_detections then true
  else false

/-- Per-frame severity of the BATCH path (`analyze_video`,
the `severity` if/elif chain inside pass 1). -/
def batchSeverity (collision_detected : Bool) (vehicle_count person_count : Nat) : Severity :=
  if collision_detected ∧ 2 ≤ vehicle_count then .CRITICAL
  else if collision_detected ∧ 1 ≤ person_count then .MAJOR
  else if 1 ≤ vehicle_count ∧ 2 ≤ person_count then .MEDIUM
  else .MINOR

/-- Per-frame victim estimate of the BATCH path (`analyze_video`,
`victims_estimated = person_count if person_count > 0 else 1`). -/
def batchVictims (person_count : Nat) : Nat :=
  if 0 < person_count then person_count else 1

/-- One entry of `state["candidate_frames"]`: the dict appended in
`detect_accident` when a frame is accident-flagged.  The annotated image
buffer is abstracted to an image identifier. -/
structure Candidate where
  severity : Severity
  severity_score : Nat
  overlap_r : ℚ
  victims_estimated : Nat
  person_count : Nat
  collision_detected : Bool
  primary_vehicle_type : Option Nat
  annotated_img : Nat
deriving DecidableEq

/-- What the LIVE endpoint observes about one uploaded frame: the counts
and geometry the detector stage produces after confidence filtering, the
wall-clock time of the request, and the backend's reply to a potential
incident report (`some id` when `send_incident_to_backend` succeeds and
its JSON carries an id convertible to int; `none` on failure, unreachable
backend, or a reply without a usable id). -/
structure FrameObs where
  img : Nat
  vehicle_count : Nat
  person_count : Nat
  total_danger_detections : Nat
  collision_detected : Bool
  overlap_r : ℚ
  primary_vehicle_type : Option Nat
  now_ts : ℚ
  reporterResult : Option Nat
deriving DecidableEq

/-- The per-camera state dict created by `get_camera_state`.
Deques are lists with the newest element last; the incident tag
`f"\x7bcamera_id\x7d_\x7bint(now_ts)\x7d"` is abstracted to the
confirmation timestamp (the state is already per-camera). -/
structure CameraState where
  accident_counter : Nat
  frame_buffer : List Nat
  candidate_frames : List Candidate
  last_alert_time : ℚ
  post_capture_remaining : Nat
  post_capture_counter : Nat
  current_incident_tag : Option ℚ
deriving DecidableEq

/-- The fresh state installed by `get_camera_state` on first contact. -/
def initCameraState : CameraState :=
  { accident_counter := 0
    frame_buffer := []
    candidate_frames := []
    last_alert_time := 0
    post_capture_remaining := 0
    post_capture_counter := 0
    current_incident_tag := none }

/-- Appending to a `deque(maxlen = cap)`: the oldest elements are evicted
once the capacity is exceeded. -/
def dequeAppend (cap : Nat) (xs : List α) (x : α) : List α :=
  let ys := xs ++ [x]
  if cap < ys.length then ys.drop (ys.length - cap) else ys

/-- The last `n` elements of a list. -/
def lastN (n : Nat) (xs : List α) : List α :=
  xs.drop (xs.length - n)

/-- The candidate dict built from the current frame in `detect_accident`
(both the `candidate_frames.append(...)` literal and the
`best_frame_data is None` fallback use exactly these fields). -/
def mkCandidate (fr : FrameObs) : Candidate :=
  { severity := frameSeverity fr.collision_detected fr.vehicle_count fr.person_count
    severity_score := severityScore (frameSeverity fr.collision_detected fr.vehicle_count fr.person_count)
    overlap_r := fr.overlap_r
    victims_estimated := frameVictims fr.person_count
    person_count := fr.person_count
    collision_detected := fr.collision_detected
    primary_vehicle_type := fr.primary_vehicle_type
    annotated_img := fr.img }

/-- The sort key `lambda f: (f["severity_score"], f["overlap_ratio"])`
used to pick the best candidate. -/
def candKey (c : Candidate) : Nat × ℚ :=
  (c.severity_score, c.overlap_r)

/-- Strict lexicographic order on candidate keys, the Python tuple
comparison `key(x) > key(best)`. -/
def keyLt (a b : Nat × ℚ) : Prop :=
  a.1 < b.1 ∨ (a.1 = b.1 ∧ a.2 < b.2)

instance (a b : Nat × ℚ) : Decidable (keyLt a b) := by
  unfold keyLt; infer_instance

/-- Embeds `max(state["candidate_frames"], key = ...)`: Python's `max`
scans left to right and replaces the running best only on a strictly
greater key, so the first maximal element wins. -/
def chooseBest (pool : List Candidate) : Option Candidate :=
  match pool with
  | [] => none
  | c :: cs => some (cs.foldl (fun best x => if keyLt (candKey best) (candKey x) then x else best) c)

/-- The post-accident snapshot block at the top of `detect_accident`:
while `post_capture_remaining > 0` and an incident tag is active, the
incoming frame is saved as `accident_post_<tag>_<idx>.jpg` and the
countdown/index advance. Returns the updated state and the (tag, index)
pairs persisted on this frame. -/
def postCaptureStep (st : CameraState) : CameraState × List (ℚ × Nat) :=
  match st.current_incident_tag with
  | some tg =>
      if 0 < st.post_capture_remaining then
        ({ st with post_capture_remaining := st.post_capture_remaining - 1
                   post_capture_counter := st.post_capture_counter + 1 },
         [(tg, st.post_capture_counter)])
      else (st, [])
  | none => (st, [])

/-- The accumulation rule of `detect_accident`: an accident-flagged frame
appends a candidate and increments `accident_counter`; any other frame
resets `accident_counter` to 0 (the pool is NOT touched there). -/
def accumulate (fr : FrameObs) (st : CameraState) : CameraState :=
  if frameAccidentFlag fr.collision_detected fr.vehicle_count fr.person_count fr.total_danger_detections then
    { st with candidate_frames := dequeAppend CANDIDATE_POOL_CAP st.candidate_frames (mkCandidate fr)
              accident_counter := st.accident_counter + 1 }
  else
    { st with accident_counter := 0 }

/-- Everything `detect_accident` does to the state before the temporal
confirmation test: append the raw frame to the ring buffer, drain the
post-capture phase, then apply the accumulation rule. -/
def preStep (fr : FrameObs) (st : CameraState) : CameraState × List (ℚ × Nat) :=
  let stB := { st with frame_buffer := dequeAppend FRAME_BUFFER_SIZE st.frame_buffer fr.img }
  let pc := postCaptureStep stB
  (accumulate fr pc.1, pc.2)

/-- The incident record handed to `send_incident_to_backend`
(fields taken from the selected best candidate). -/
structure ReportRec where
  tag : ℚ
  best : Candidate
deriving DecidableEq

/-- Result of one call to the LIVE endpoint: the successor state, the
response fields `accidents_detected` and `incident_ids`, the post-capture
snapshots persisted during this call, and the incident report sent to the
backend (if any). -/
structure StepOut where
  state : CameraState
  accidents_detected : Nat
  incident_ids : List Nat
  postSaved : List (ℚ × Nat)
  reported : Option ReportRec
deriving DecidableEq

/-- The finalization block of `detect_accident` (confirmed, outside
cooldown): select the best candidate (falling back to the current frame
on an empty pool), assign a fresh incident tag, arm the post-capture
phase, send the incident to the backend, then reset the streak, clear the
pool and start the cooldown.  The reset runs for every reporter outcome
because `send_incident_to_backend` catches its own exceptions. -/
def finalizeStep (fr : FrameObs) (st : CameraState) (posts : List (ℚ × Nat)) : StepOut :=
  let best := (chooseBest st.candidate_frames).getD (mkCandidate fr)
  let tg := fr.now_ts
  let st1 :=
    { st with current_incident_tag := some tg
              post_capture_remaining := POST_CAPTURE_FRAMES
              post_capture_counter := 0
              last_alert_time := fr.now_ts
              accident_counter := 0
              candidate_frames := [] }
  match fr.reporterResult with
  | some i => ⟨st1, 1, [i], posts, some ⟨tg, best⟩⟩
  | none => ⟨st1, 0, [], posts, some ⟨tg, best⟩⟩

/-- One full call of the LIVE endpoint `detect_accident` on a decodable
frame: pre-step, temporal confirmation (`accident_counter ≥
ACCIDENT_CONFIRM_FRAMES`), cooldown gate (`time.time() -
last_alert_time` when `last_alert_time` is truthy, else 9999), then
either an early zero-accident return or finalization. -/
def detect_accident_step (fr : FrameObs) (st0 : CameraState) : StepOut :=
  let p := preStep fr st0
  let stA := p.1
  let time_since_last_alert : ℚ :=
    if stA.last_alert_time = 0 then 9999 else fr.now_ts - stA.last_alert_time
  if ACCIDENT_CONFIRM_FRAMES ≤ stA.accident_counter then
    if time_since_last_alert < ALERT_COOLDOWN_SECONDS then ⟨stA, 0, [], p.2, none⟩
    else finalizeStep fr stA p.2
  else ⟨stA, 0, [], p.2, none⟩

/-- Outputs of running the LIVE endpoint over a sequence of frames. -/
def runOuts : CameraState → List FrameObs → List StepOut
  | _, [] => []
  | st, f :: fs =>
      let o := detect_accident_step f st
      o :: runOuts o.state fs

/-- State after running the LIVE endpoint over a sequence of frames. -/
def runState : CameraState → List FrameObs → CameraState
  | st, [] => st
  | st, f :: fs => runState (detect_accident_step f st).state fs

/-- Post-accident snapshots persisted while running a frame sequence,
in order of arrival. -/
def postTrace (st : CameraState) (fs : List FrameObs) : List (ℚ × Nat) :=
  ((runOuts st fs).map StepOut.postSaved).flatten

/-- Number of incident reports sent to the backend while running a frame
sequence. -/
def reportCount (st : CameraState) (fs : List FrameObs) : Nat :=
  ((runOuts st fs).filterMap StepOut.reported).length

/-- An axis-aligned bounding box `[x1, y1, x2, y2]`. -/
structure Box where
  x1 : ℚ
  y1 : ℚ
  x2 : ℚ
  y2 : ℚ
deriving DecidableEq

/-- Box area as computed in `compute_max_overlap_ratio`:
`max(0, x_max - x_min) * max(0, y_max - y_min)`. -/
def boxArea (b : Box) : ℚ :=
  max 0 (b.x2 - b.x1) * max 0 (b.y2 - b.y1)

/-- Intersection area of two boxes, `iw * ih` with
`iw = max(0, ix_max - ix_min)` and `ih = max(0, iy_max - iy_min)`. -/
def interArea (a b : Box) : ℚ :=
  max 0 (min a.x2 b.x2 - max a.x1 b.x1) * max 0 (min a.y2 b.y2 - max a.y1 b.y1)

/-- Body of the inner `for j` loop of `compute_max_overlap_ratio`:
skip zero-area partners, skip empty intersections and empty unions,
otherwise raise the running maximum. -/
def innerUpd (a : Box) (m : ℚ) (b : Box) : ℚ :=
  if boxArea b ≤ 0 then m
  else
    let inter := interArea a b
    if inter ≤ 0 then m
    else
      let union := boxArea a + boxArea b - inter
      if union ≤ 0 then m
      else if m < inter / union then inter / union else m

/-- The outer `for i` loop of `compute_max_overlap_ratio`: boxes with
non-positive area are skipped, otherwise the inner loop runs over the
remaining boxes. -/
def outerLoop : List Box → ℚ → ℚ
  | [], m => m
  | a :: rest, m =>
      if boxArea a ≤ 0 then outerLoop rest m
      else outerLoop rest (rest.foldl (innerUpd a) m)

/-- Embeds `compute_max_overlap_ratio(boxes)`: 0.0 for fewer than two
boxes, otherwise the double loop above starting from `max_ratio = 0`. -/
def compute_max_overlap (boxes : List Box) : ℚ :=
  if boxes.length < 2 then 0 else outerLoop boxes 0

/-- Intersection over union of two boxes (division by zero yields 0 in
ℚ, which never occurs for two positive-area boxes). -/
def iouOf (a b : Box) : ℚ :=
  interArea a b / (boxArea a + boxArea b - interArea a b)

/-- Modelled from the spec: the IoU contribution of an unordered pair —
the pair's IoU when both boxes have positive area, otherwise 0. -/
def pairContrib (a b : Box) : ℚ :=
  if 0 < boxArea a ∧ 0 < boxArea b then iouOf a b else 0

/-- All unordered pairs of a list, in iteration order. -/
def allPairs : List Box → List (Box × Box)
  | [] => []
  | a :: rest => rest.map (fun b => (a, b)) ++ allPairs rest

/-- Modelled from the spec: the maximum IoU over all unordered pairs of
positive-area boxes, or 0 when there is no such pair or no pair has
positive intersection. -/
def specMaxIoU (boxes : List Box) : ℚ :=
  (allPairs boxes).foldl (fun m p => max m (pairContrib p.1 p.2)) 0

/-- Streak counter right after the accumulation rule of one call. -/
def postCounter (fr : FrameObs) (st : CameraState) : Nat :=
  if frameAccidentFlag fr.collision_detected fr.vehicle_count fr.person_count fr.total_danger_detections then
    st.accident_counter + 1
  else 0

/-- The cooldown gate is open: either the camera has never alerted
(`last_alert_time` falsy) or at least `ALERT_COOLDOWN_SECONDS` have
passed since the last alert. -/
def outOfCooldown (fr : FrameObs) (st : CameraState) : Prop :=
  st.last_alert_time = 0 ∨ ALERT_COOLDOWN_SECONDS ≤ fr.now_ts - st.last_alert_time

instance (fr : FrameObs) (st : CameraState) : Decidable (outOfCooldown fr st) := by
  unfold outOfCooldown; infer_instance

lemma preStep_counter (fr : FrameObs) (st : CameraState) :
    (preStep fr st).1.accident_counter = postCounter fr st := by
  simp only [preStep, postCaptureStep, accumulate, postCounter]
  cases st.current_incident_tag <;> dsimp <;> split_ifs <;> rfl

lemma preStep_last (fr : FrameObs) (st : CameraState) :
    (preStep fr st).1.last_alert_time = st.last_alert_time := by
  simp only [preStep, postCaptureStep, accumulate]
  cases st.current_incident_tag <;> dsimp <;> split_ifs <;> rfl

lemma preStep_tag (fr : FrameObs) (st : CameraState) :
    (preStep fr st).1.current_incident_tag = st.current_incident_tag := by
  simp only [preStep, postCaptureStep, accumulate]
  cases st.current_incident_tag <;> dsimp <;> split_ifs <;> rfl

lemma preStep_pool (fr : FrameObs) (st : CameraState) :
    (preStep fr st).1.candidate_frames =
      if frameAccidentFlag fr.collision_detected fr.vehicle_count fr.person_count fr.total_danger_detections then
        dequeAppend CANDIDATE_POOL_CAP st.candidate_frames (mkCandidate fr)
      else st.candidate_frames := by
  simp only [preStep, postCaptureStep, accumulate]
  cases st.current_incident_tag <;> dsimp <;> split_ifs <;> rfl

lemma preStep_remaining (fr : FrameObs) (st : CameraState) :
    (preStep fr st).1.post_capture_remaining =
      if st.current_incident_tag ≠ none ∧ 0 < st.post_capture_remaining then
        st.post_capture_remaining - 1
      else st.post_capture_remaining := by
  simp only [preStep, postCaptureStep, accumulate]
  cases st.current_incident_tag <;> dsimp <;> split_ifs <;> simp_all

lemma preStep_pcc (fr : FrameObs) (st : CameraState) :
    (preStep fr st).1.post_capture_counter =
      if st.current_incident_tag ≠ none ∧ 0 < st.post_capture_remaining then
        st.post_capture_counter + 1
      else st.post_capture_counter := by
  simp only [preStep, postCaptureStep, accumulate]
  cases st.current_incident_tag <;> dsimp <;> split_ifs <;> simp_all

lemma preStep_posts (fr : FrameObs) (st : CameraState) :
    (preStep fr st).2 =
      match st.current_incident_tag with
      | some tg => if 0 < st.post_capture_remaining then [(tg, st.post_capture_counter)] else []
      | none => [] := by
  simp only [preStep, postCaptureStep, accumulate]
  cases st.current_incident_tag <;> dsimp <;> split_ifs <;> rfl

lemma step_postSaved (fr : FrameObs) (st : CameraState) :
    (detect_accident_step fr st).postSaved = (preStep fr st).2 := by
  simp only [detect_accident_step, finalizeStep]
  split_ifs
  all_goals first | rfl | (cases fr.reporterResult <;> rfl)

lemma step_no_finalize (fr : FrameObs) (st : CameraState)
    (h : ¬ (ACCIDENT_CONFIRM_FRAMES ≤ postCounter fr st ∧ outOfCooldown fr st)) :
    detect_accident_step fr st = ⟨(preStep fr st).1, 0, [], (preStep fr st).2, none⟩ := by
  simp only [detect_accident_step, preStep_last, preStep_counter]
  by_cases hc : ACCIDENT_CONFIRM_FRAMES ≤ postCounter fr st
  · have hooc : ¬ outOfCooldown fr st := fun hx => h ⟨hc, hx⟩
    unfold outOfCooldown at hooc
    push_neg at hooc
    rw [if_pos hc, if_pos]
    rw [if_neg hooc.1]
    exact hooc.2
  · rw [if_neg hc]

lemma step_finalize (fr : FrameObs) (st : CameraState)
    (hc : ACCIDENT_CONFIRM_FRAMES ≤ postCounter fr st) (hooc : outOfCooldown fr st) :
    detect_accident_step fr st = finalizeStep fr (preStep fr st).1 (preStep fr st).2 := by
  simp only [detect_accident_step, preStep_last, preStep_counter]
  rw [if_pos hc, if_neg]
  split_ifs with h0
  · norm_num [ALERT_COOLDOWN_SECONDS]
  · exact not_lt.mpr (hooc.resolve_left h0)

lemma finalizeStep_state (fr : FrameObs) (st : CameraState) (posts : List (ℚ × Nat)) :
    (finalizeStep fr st posts).state =
      { st with current_incident_tag := some fr.now_ts
                post_capture_remaining := POST_CAPTURE_FRAMES
                post_capture_counter := 0
                last_alert_time := fr.now_ts
                accident_counter := 0
                candidate_frames := [] } := by
  unfold finalizeStep
  cases fr.reporterResult <;> rfl

lemma finalizeStep_reported (fr : FrameObs) (st : CameraState) (posts : List (ℚ × Nat)) :
    (finalizeStep fr st posts).reported =
      some ⟨fr.now_ts, (chooseBest st.candidate_frames).getD (mkCandidate fr)⟩ := by
  unfold finalizeStep
  cases fr.reporterResult <;> rfl

lemma finalizeStep_resp_fail (fr : FrameObs) (st : CameraState) (posts : List (ℚ × Nat))
    (h : fr.reporterResult = none) :
    (finalizeStep fr st posts).accidents_detected = 0 ∧
      (finalizeStep fr st posts).incident_ids = [] := by
  unfold finalizeStep
  rw [h]
  exact ⟨rfl, rfl⟩

/-- The frame-level accident flag of one observation. -/
def flagged (fr : FrameObs) : Bool :=
  frameAccidentFlag fr.collision_detected fr.vehicle_count fr.person_count fr.total_danger_detections

lemma postCounter_pos {fr : FrameObs} (st : CameraState) (h : flagged fr = true) :
    postCounter fr st = st.accident_counter + 1 := by
  unfold flagged at h
  simp only [postCounter]
  rw [if_pos h]

lemma postCounter_zero {fr : FrameObs} (st : CameraState) (h : flagged fr = false) :
    postCounter fr st = 0 := by
  unfold flagged at h
  simp only [postCounter]
  rw [if_neg]
  simp [h]

lemma reportCount_nil (st : CameraState) : reportCount st [] = 0 := rfl

lemma reportCount_cons (st : CameraState) (f : FrameObs) (fs : List FrameObs) :
    reportCount st (f :: fs) =
      (if (detect_accident_step f st).reported.isSome then 1 else 0) +
        reportCount (detect_accident_step f st).state fs := by
  simp only [reportCount, runOuts, List.filterMap_cons]
  cases h : (detect_accident_step f st).reported <;> simp [h, Nat.add_comm]

lemma postTrace_nil (st : CameraState) : postTrace st [] = [] := rfl

lemma postTrace_cons (st : CameraState) (f : FrameObs) (fs : List FrameObs) :
    postTrace st (f :: fs) =
      (detect_accident_step f st).postSaved ++ postTrace (detect_accident_step f st).state fs := by
  simp [postTrace, runOuts]

/-- Convenient bundled form of a non-finalizing call. -/
lemma step_accumulating (fr : FrameObs) (st : CameraState)
    (h : ¬ (ACCIDENT_CONFIRM_FRAMES ≤ postCounter fr st ∧ outOfCooldown fr st)) :
    (detect_accident_step fr st).reported = none ∧
      (detect_accident_step fr st).state.accident_counter = postCounter fr st ∧
      (detect_accident_step fr st).state.last_alert_time = st.last_alert_time ∧
      (detect_accident_step fr st).state.candidate_frames = (preStep fr st).1.candidate_frames := by
  rw [step_no_finalize fr st h]
  exact ⟨rfl, preStep_counter fr st, preStep_last fr st, rfl⟩

/-- Convenient bundled form of a finalizing call. -/
lemma step_confirming (fr : FrameObs) (st : CameraState)
    (hc : ACCIDENT_CONFIRM_FRAMES ≤ postCounter fr st) (hooc : outOfCooldown fr st) :
    (detect_accident_step fr st).reported.isSome = true ∧
      (detect_accident_step fr st).state.accident_counter = 0 ∧
      (detect_accident_step fr st).state.last_alert_time = fr.now_ts ∧
      (detect_accident_step fr st).state.candidate_frames = [] := by
  rw [step_finalize fr st hc hooc]
  refine ⟨?_, ?_, ?_, ?_⟩
  · rw [finalizeStep_reported]; rfl
  · rw [finalizeStep_state]
  · rw [finalizeStep_state]
  · rw [finalizeStep_state]

/-- C1: in live mode, from a stream whose streak is 0, two
(= `ACCIDENT_CONFIRM_FRAMES − 1`) consecutive accident-flagged frames
followed by one non-flagged frame never send a report, while three
(= `ACCIDENT_CONFIRM_FRAMES`) consecutive accident-flagged frames,
outside cooldown, send exactly one report. -/
theorem C1_live_temporal_confirmation :
    (∀ (st : CameraState) (f1 f2 g : FrameObs),
        st.accident_counter = 0 → flagged f1 = true → flagged f2 = true → flagged g = false →
        reportCount st [f1, f2, g] = 0) ∧
    (∀ (st : CameraState) (f1 f2 f3 : FrameObs),
        st.accident_counter = 0 → flagged f1 = true → flagged f2 = true → flagged f3 = true →
        outOfCooldown f3 st →
        reportCount st [f1, f2, f3] = 1) := by
  have acf : ACCIDENT_CONFIRM_FRAMES = 3 := rfl
  constructor
  · intro st f1 f2 g h0 hf1 hf2 hg
    have hpc1 : postCounter f1 st = 1 := by rw [postCounter_pos st hf1, h0]
    obtain ⟨r1, c1, -, -⟩ :=
      step_accumulating f1 st (by rw [hpc1, acf]; rintro ⟨hx, -⟩; omega)
    have hpc2 : postCounter f2 (detect_accident_step f1 st).state = 2 := by
      rw [postCounter_pos _ hf2, c1, hpc1]
    obtain ⟨r2, c2, -, -⟩ :=
      step_accumulating f2 (detect_accident_step f1 st).state
        (by rw [hpc2, acf]; rintro ⟨hx, -⟩; omega)
    have hpc3 : postCounter g (detect_accident_step f2 (detect_accident_step f1 st).state).state = 0 :=
      postCounter_zero _ hg
    obtain ⟨r3, -, -, -⟩ :=
      step_accumulating g (detect_accident_step f2 (detect_accident_step f1 st).state).state
        (by rw [hpc3, acf]; rintro ⟨hx, -⟩; omega)
    rw [reportCount_cons, reportCount_cons, reportCount_cons, reportCount_nil]
    simp [r1, r2, r3]
  · intro st f1 f2 f3 h0 hf1 hf2 hf3 hooc
    have hpc1 : postCounter f1 st = 1 := by rw [postCounter_pos st hf1, h0]
    obtain ⟨r1, c1, l1, -⟩ :=
      step_accumulating f1 st (by rw [hpc1, acf]; rintro ⟨hx, -⟩; omega)
    have hpc2 : postCounter f2 (detect_accident_step f1 st).state = 2 := by
      rw [postCounter_pos _ hf2, c1, hpc1]
    obtain ⟨r2, c2, l2, -⟩ :=
      step_accumulating f2 (detect_accident_step f1 st).state
        (by rw [hpc2, acf]; rintro ⟨hx, -⟩; omega)
    have hpc3 : postCounter f3 (detect_accident_step f2 (detect_accident_step f1 st).state).state = 3 := by
      rw [postCounter_pos _ hf3, c2, hpc2]
    have hooc3 : outOfCooldown f3 (detect_accident_step f2 (detect_accident_step f1 st).state).state := by
      unfold outOfCooldown at hooc ⊢
      rw [l2, l1]
      exact hooc
    obtain ⟨r3, -, -, -⟩ :=
      step_confirming f3 (detect_accident_step f2 (detect_accident_step f1 st).state).state
        (by rw [hpc3, acf]) hooc3
    rw [reportCount_cons, reportCount_cons, reportCount_cons, reportCount_nil]
    simp [r1, r2, r3]

/-- An accident-flagged frame used by concrete witnesses: two vehicles
in collision at time 1000, backend reachable. -/
def wFlagFrame : FrameObs :=
  { img := 1
    vehicle_count := 2
    person_count := 0
    total_danger_detections := 2
    collision_detected := true
    overlap_r := 1/2
    primary_vehicle_type := some 0
    now_ts := 1000
    reporterResult := some 7 }

/-- A non-flagged (empty scene) frame used by concrete witnesses. -/
def wPlainFrame : FrameObs :=
  { img := 2
    vehicle_count := 0
    person_count := 0
    total_danger_detections := 0
    collision_detected := false
    overlap_r := 0
    primary_vehicle_type := none
    now_ts := 1001
    reporterResult := none }

theorem C1_live_temporal_confirmation_witness :
    reportCount initCameraState [wFlagFrame, wFlagFrame, wPlainFrame] = 0 ∧
      reportCount initCameraState [wFlagFrame, wFlagFrame, wFlagFrame] = 1 :=
  ⟨C1_live_temporal_confirmation.1 initCameraState wFlagFrame wFlagFrame wPlainFrame
      rfl (by decide) (by decide) (by decide),
   C1_live_temporal_confirmation.2 initCameraState wFlagFrame wFlagFrame wFlagFrame
      rfl (by decide) (by decide) (by decide) (Or.inl rfl)⟩

/-- A flagged witness frame at a chosen arrival time. -/
def wFlagAt (t : ℚ) : FrameObs :=
  { wFlagFrame with now_ts := t }

/-- A non-flagged witness frame at a chosen arrival time. -/
def wPlainAt (t : ℚ) : FrameObs :=
  { wPlainFrame with now_ts := t }

/-- C2 (counterexample): processing an accident-flagged frame and then a
non-flagged frame from a fresh stream leaves the streak counter at 0 but
the candidate pool NON-empty — `detect_accident` only resets
`accident_counter` on a gap, it never clears `candidate_frames` there. -/
theorem C2_counterexample_pool_not_cleared :
    (detect_accident_step wPlainFrame
        (detect_accident_step wFlagFrame initCameraState).state).state.accident_counter = 0 ∧
      (detect_accident_step wPlainFrame
        (detect_accident_step wFlagFrame initCameraState).state).state.candidate_frames ≠ [] := by
  decide

/-- C2 (amended): in live mode a non-flagged frame resets the streak
counter to 0 but leaves the candidate pool exactly as it was; the pool is
only emptied when an incident is finalized. -/
theorem C2_gap_resets_streak_only (st : CameraState) (fr : FrameObs)
    (h : flagged fr = false) :
    (detect_accident_step fr st).state.accident_counter = 0 ∧
      (detect_accident_step fr st).state.candidate_frames = st.candidate_frames := by
  have hpc := postCounter_zero st h
  obtain ⟨-, c, -, p⟩ :=
    step_accumulating fr st
      (by rw [hpc]; rintro ⟨hx, -⟩; simp [ACCIDENT_CONFIRM_FRAMES] at hx)
  refine ⟨by rw [c, hpc], ?_⟩
  rw [p, preStep_pool, if_neg]
  unfold flagged at h
  simp [h]

theorem C2_gap_resets_streak_only_witness :
    flagged wPlainFrame = false ∧
      (detect_accident_step wPlainFrame initCameraState).state.accident_counter = 0 ∧
      (detect_accident_step wPlainFrame initCameraState).state.candidate_frames =
        initCameraState.candidate_frames :=
  ⟨by decide, C2_gap_resets_streak_only initCameraState wPlainFrame (by decide)⟩

/-- C3: a confirmation reached during cooldown is suppressed — nothing is
reported and the suppression performs no reset (the streak keeps growing
and the candidate just appended stays in the pool, so a later frame can
still confirm); consequently two confirmable streaks closer than
`ALERT_COOLDOWN_SECONDS` yield one report and farther apart yield two. -/
theorem C3_cooldown_suppression :
    (∀ (st : CameraState) (fr : FrameObs),
        flagged fr = true → ACCIDENT_CONFIRM_FRAMES ≤ st.accident_counter + 1 →
        0 < st.last_alert_time → fr.now_ts - st.last_alert_time < ALERT_COOLDOWN_SECONDS →
        (detect_accident_step fr st).reported = none ∧
          (detect_accident_step fr st).state.accident_counter = st.accident_counter + 1 ∧
          (detect_accident_step fr st).state.candidate_frames =
            dequeAppend CANDIDATE_POOL_CAP st.candidate_frames (mkCandidate fr) ∧
          (detect_accident_step fr st).state.last_alert_time = st.last_alert_time) ∧
    (∀ (st : CameraState) (f1 f2 f3 g h1 h2 h3 : FrameObs),
        st.accident_counter = 0 → st.last_alert_time = 0 →
        flagged f1 = true → flagged f2 = true → flagged f3 = true → flagged g = false →
        flagged h1 = true → flagged h2 = true → flagged h3 = true →
        0 < f3.now_ts →
        ((h3.now_ts - f3.now_ts < ALERT_COOLDOWN_SECONDS →
            reportCount st [f1, f2, f3, g, h1, h2, h3] = 1) ∧
         (ALERT_COOLDOWN_SECONDS ≤ h3.now_ts - f3.now_ts →
            reportCount st [f1, f2, f3, g, h1, h2, h3] = 2))) := by
  have acf : ACCIDENT_CONFIRM_FRAMES = 3 := rfl
  constructor
  · intro st fr hf hc hl hcool
    have hpc : postCounter fr st = st.accident_counter + 1 := postCounter_pos st hf
    obtain ⟨r, c, l, p⟩ :=
      step_accumulating fr st
        (by
          rintro ⟨-, hx | hx⟩
          · exact absurd hx (ne_of_gt hl)
          · exact absurd hcool (not_lt.mpr hx))
    refine ⟨r, by rw [c, hpc], ?_, l⟩
    rw [p, preStep_pool, if_pos]
    unfold flagged at hf
    exact hf
  · intro st f1 f2 f3 g h1 h2 h3 hctr hlast hf1 hf2 hf3 hg hh1 hh2 hh3 hpos
    have hpc1 : postCounter f1 st = 1 := by rw [postCounter_pos st hf1, hctr]
    obtain ⟨r1, c1, l1, -⟩ :=
      step_accumulating f1 st (by rw [hpc1, acf]; rintro ⟨hx, -⟩; omega)
    set s1 := (detect_accident_step f1 st).state with hs1
    have hpc2 : postCounter f2 s1 = 2 := by rw [postCounter_pos _ hf2, c1, hpc1]
    obtain ⟨r2, c2, l2, -⟩ :=
      step_accumulating f2 s1 (by rw [hpc2, acf]; rintro ⟨hx, -⟩; omega)
    set s2 := (detect_accident_step f2 s1).state with hs2
    have hpc3 : postCounter f3 s2 = 3 := by rw [postCounter_pos _ hf3, c2, hpc2]
    have hooc3 : outOfCooldown f3 s2 := Or.inl (by rw [l2, l1, hlast])
    obtain ⟨r3, c3, l3, -⟩ := step_confirming f3 s2 (by rw [hpc3, acf]) hooc3
    set s3 := (detect_accident_step f3 s2).state with hs3
    have hpc4 : postCounter g s3 = 0 := postCounter_zero _ hg
    obtain ⟨r4, c4, l4, -⟩ :=
      step_accumulating g s3 (by rw [hpc4, acf]; rintro ⟨hx, -⟩; omega)
    set s4 := (detect_accident_step g s3).state with hs4
    have hpc5 : postCounter h1 s4 = 1 := by rw [postCounter_pos _ hh1, c4, hpc4]
    obtain ⟨r5, c5, l5, -⟩ :=
      step_accumulating h1 s4 (by rw [hpc5, acf]; rintro ⟨hx, -⟩; omega)
    set s5 := (detect_accident_step h1 s4).state with hs5
    have hpc6 : postCounter h2 s5 = 2 := by rw [postCounter_pos _ hh2, c5, hpc5]
    obtain ⟨r6, c6, l6, -⟩ :=
      step_accumulating h2 s5 (by rw [hpc6, acf]; rintro ⟨hx, -⟩; omega)
    set s6 := (detect_accident_step h2 s5).state with hs6
    have hpc7 : postCounter h3 s6 = 3 := by rw [postCounter_pos _ hh3, c6, hpc6]
    have hl6 : s6.last_alert_time = f3.now_ts := by rw [l6, l5, l4, l3]
    constructor
    · intro hclose
      obtain ⟨r7, -, -, -⟩ :=
        step_accumulating h3 s6
          (by
            rintro ⟨-, hx | hx⟩
            · rw [hl6] at hx; exact absurd hx (ne_of_gt hpos)
            · rw [hl6] at hx; exact absurd hclose (not_lt.mpr hx))
      rw [reportCount_cons, reportCount_cons, reportCount_cons, reportCount_cons,
        reportCount_cons, reportCount_cons, reportCount_cons, reportCount_nil]
      simp [r1, r2, r3, r4, r5, r6, r7]
    · intro hfar
      have hooc7 : outOfCooldown h3 s6 := Or.inr (by rw [hl6]; exact hfar)
      obtain ⟨r7, -, -, -⟩ := step_confirming h3 s6 (by rw [hpc7, acf]) hooc7
      rw [reportCount_cons, reportCount_cons, reportCount_cons, reportCount_cons,
        reportCount_cons, reportCount_cons, reportCount_cons, reportCount_nil]
      simp [r1, r2, r3, r4, r5, r6, r7]

theorem C3_cooldown_suppression_witness :
    ((detect_accident_step (wFlagAt 1010)
        { initCameraState with accident_counter := 2, last_alert_time := 1000 }).reported = none ∧
      (detect_accident_step (wFlagAt 1010)
        { initCameraState with accident_counter := 2, last_alert_time := 1000 }).state.accident_counter = 3 ∧
      (detect_accident_step (wFlagAt 1010)
        { initCameraState with accident_counter := 2, last_alert_time := 1000 }).state.candidate_frames =
        dequeAppend CANDIDATE_POOL_CAP [] (mkCandidate (wFlagAt 1010)) ∧
      (detect_accident_step (wFlagAt 1010)
        { initCameraState with accident_counter := 2, last_alert_time := 1000 }).state.last_alert_time = 1000) ∧
    reportCount initCameraState
      [wFlagAt 1000, wFlagAt 1000, wFlagAt 1000, wPlainAt 1001,
       wFlagAt 1010, wFlagAt 1011, wFlagAt 1012] = 1 ∧
    reportCount initCameraState
      [wFlagAt 1000, wFlagAt 1000, wFlagAt 1000, wPlainAt 1001,
       wFlagAt 1100, wFlagAt 1101, wFlagAt 1102] = 2 :=
  ⟨C3_cooldown_suppression.1
      { initCameraState with accident_counter := 2, last_alert_time := 1000 }
      (wFlagAt 1010) (by decide) (by decide) (by decide)
      (by norm_num [wFlagAt, wFlagFrame, ALERT_COOLDOWN_SECONDS, initCameraState]),
   (C3_cooldown_suppression.2 initCameraState
      (wFlagAt 1000) (wFlagAt 1000) (wFlagAt 1000) (wPlainAt 1001)
      (wFlagAt 1010) (wFlagAt 1011) (wFlagAt 1012)
      rfl rfl (by decide) (by decide) (by decide) (by decide)
      (by decide) (by decide) (by decide) (by decide)).1
      (by norm_num [wFlagAt, wFlagFrame, ALERT_COOLDOWN_SECONDS]),
   (C3_cooldown_suppression.2 initCameraState
      (wFlagAt 1000) (wFlagAt 1000) (wFlagAt 1000) (wPlainAt 1001)
      (wFlagAt 1100) (wFlagAt 1101) (wFlagAt 1102)
      rfl rfl (by decide) (by decide) (by decide) (by decide)
      (by decide) (by decide) (by decide) (by decide)).2
      (by norm_num [wFlagAt, wFlagFrame, ALERT_COOLDOWN_SECONDS])⟩

/-- C4: when a confirmed incident is finalized and the reporter call
fails (`send_incident_to_backend` returns None), the local state
transition still completes — cooldown is started, the streak and pool are
reset — and the caller receives `accidents_detected = 0` with no
incident ids, even though an incident record was computed and sent. -/
theorem C4_reporter_failure_still_resets (st : CameraState) (fr : FrameObs)
    (hf : flagged fr = true) (hc : ACCIDENT_CONFIRM_FRAMES ≤ st.accident_counter + 1)
    (hooc : outOfCooldown fr st) (hrep : fr.reporterResult = none) :
    (detect_accident_step fr st).accidents_detected = 0 ∧
      (detect_accident_step fr st).incident_ids = [] ∧
      (detect_accident_step fr st).state.last_alert_time = fr.now_ts ∧
      (detect_accident_step fr st).state.accident_counter = 0 ∧
      (detect_accident_step fr st).state.candidate_frames = [] ∧
      (detect_accident_step fr st).reported.isSome = true := by
  have hc' : ACCIDENT_CONFIRM_FRAMES ≤ postCounter fr st := by
    rw [postCounter_pos st hf]; exact hc
  rw [step_finalize fr st hc' hooc]
  obtain ⟨ha, hi⟩ := finalizeStep_resp_fail fr (preStep fr st).1 (preStep fr st).2 hrep
  refine ⟨ha, hi, ?_, ?_, ?_, ?_⟩
  · rw [finalizeStep_state]
  · rw [finalizeStep_state]
  · rw [finalizeStep_state]
  · rw [finalizeStep_reported]; rfl

/-- A flagged frame whose report attempt fails (unreachable backend). -/
def wFailFrame : FrameObs :=
  { wFlagFrame with reporterResult := none }

theorem C4_reporter_failure_still_resets_witness :
    (detect_accident_step wFailFrame
        { initCameraState with accident_counter := 2 }).accidents_detected = 0 ∧
      (detect_accident_step wFailFrame
        { initCameraState with accident_counter := 2 }).incident_ids = [] ∧
      (detect_accident_step wFailFrame
        { initCameraState with accident_counter := 2 }).state.last_alert_time = wFailFrame.now_ts ∧
      (detect_accident_step wFailFrame
        { initCameraState with accident_counter := 2 }).state.accident_counter = 0 ∧
      (detect_accident_step wFailFrame
        { initCameraState with accident_counter := 2 }).state.candidate_frames = [] ∧
      (detect_accident_step wFailFrame
        { initCameraState with accident_counter := 2 }).reported.isSome = true :=
  C4_reporter_failure_still_resets { initCameraState with accident_counter := 2 }
    wFailFrame (by decide) (by decide) (Or.inl rfl) rfl

/-- C5: the live path and the batch path compute identical single-frame
results — on any filtered detection summary the accident flag, severity
tier and victim estimate of `detect_accident` coincide with those of
`analyze_video`. -/
theorem C5_live_batch_frame_scoring_agree :
    ∀ (collision : Bool) (vehicle person danger : Nat),
      frameAccidentFlag collision vehicle person danger =
          batchAccidentFlag collision vehicle person danger ∧
        frameSeverity collision vehicle person = batchSeverity collision vehicle person ∧
        frameVictims person = batchVictims person := by
  intro c v p d
  exact ⟨rfl, rfl, rfl⟩

/-- C6: severity is a pure function of
(collision, vehicle_count, person_count) decided by first-matching-rule
order CRITICAL, MAJOR, MEDIUM, MINOR, with the four sample points of the
spec. -/
theorem C6_severity_first_match_rule :
    (∀ (c : Bool) (v p : Nat),
      ((c = true ∧ 2 ≤ v) → frameSeverity c v p = .CRITICAL) ∧
        (¬(c = true ∧ 2 ≤ v) → (c = true ∧ 1 ≤ p) → frameSeverity c v p = .MAJOR) ∧
        (¬(c = true ∧ 2 ≤ v) → ¬(c = true ∧ 1 ≤ p) → (1 ≤ v ∧ 2 ≤ p) →
          frameSeverity c v p = .MEDIUM) ∧
        (¬(c = true ∧ 2 ≤ v) → ¬(c = true ∧ 1 ≤ p) → ¬(1 ≤ v ∧ 2 ≤ p) →
          frameSeverity c v p = .MINOR)) ∧
      frameSeverity true 2 0 = .CRITICAL ∧ frameSeverity true 0 1 = .MAJOR ∧
      frameSeverity false 1 2 = .MEDIUM ∧ frameSeverity false 0 0 = .MINOR := by
  refine ⟨?_, by decide, by decide, by decide, by decide⟩
  intro c v p
  refine ⟨fun h => ?_, fun h1 h => ?_, fun h1 h2 h => ?_, fun h1 h2 h3 => ?_⟩ <;>
    simp only [frameSeverity]
  · rw [if_pos h]
  · rw [if_neg h1, if_pos h]
  · rw [if_neg h1, if_neg h2, if_pos h]
  · rw [if_neg h1, if_neg h2, if_neg h3]

theorem C6_severity_first_match_rule_witness :
    frameSeverity true 2 0 = .CRITICAL ∧ frameSeverity true 1 1 = .MAJOR :=
  ⟨(C6_severity_first_match_rule.1 true 2 0).1 ⟨rfl, by omega⟩,
   (C6_severity_first_match_rule.1 true 1 1).2.1 (by decide) ⟨rfl, by omega⟩⟩

lemma keyLt_irrefl (a : Nat × ℚ) : ¬ keyLt a a := by
  unfold keyLt
  push_neg
  exact ⟨le_refl _, fun _ => le_refl _⟩

lemma keyLt_trans {a b c : Nat × ℚ} (h1 : keyLt a b) (h2 : keyLt b c) : keyLt a c := by
  unfold keyLt at *
  rcases h1 with h1 | ⟨e1, q1⟩ <;> rcases h2 with h2 | ⟨e2, q2⟩
  · exact Or.inl (lt_trans h1 h2)
  · exact Or.inl (by omega)
  · exact Or.inl (by omega)
  · exact Or.inr ⟨by omega, lt_trans q1 q2⟩

lemma keyLt_resolve {x b r : Nat × ℚ} (hnb : ¬ keyLt b x) (hbr : keyLt b r) : keyLt x r := by
  unfold keyLt at *
  push_neg at hnb
  rcases hbr with h | ⟨he, h2⟩
  · exact Or.inl (by have := hnb.1; omega)
  · by_cases hx : x.1 = r.1
    · exact Or.inr ⟨hx, lt_of_le_of_lt (hnb.2 (by omega)) h2⟩
    · exact Or.inl (by have := hnb.1; omega)

/-- Python's `max` keeps the first element attaining the maximal key:
the fold either returns the accumulator (nothing beat it) or an element
strictly beating everything before it and not beaten by anything after. -/
lemma foldBest_spec (xs : List Candidate) :
    ∀ b : Candidate,
      (xs.foldl (fun best x => if keyLt (candKey best) (candKey x) then x else best) b = b ∧
        ∀ x ∈ xs, ¬ keyLt (candKey b) (candKey x)) ∨
      (∃ l1 r l2, xs = l1 ++ r :: l2 ∧
        xs.foldl (fun best x => if keyLt (candKey best) (candKey x) then x else best) b = r ∧
        keyLt (candKey b) (candKey r) ∧
        (∀ x ∈ l1, keyLt (candKey x) (candKey r)) ∧
        (∀ x ∈ l2, ¬ keyLt (candKey r) (candKey x))) := by
  induction xs with
  | nil => intro b; exact Or.inl ⟨rfl, by simp⟩
  | cons x xs ih =>
      intro b
      by_cases hbx : keyLt (candKey b) (candKey x)
      · rcases ih x with ⟨heq, hall⟩ | ⟨l1, r, l2, hxs, heq, hxr, hl1, hl2⟩
        · refine Or.inr ⟨[], x, xs, by simp, ?_, hbx, by simp, hall⟩
          simpa [hbx] using heq
        · refine Or.inr ⟨x :: l1, r, l2, by simp [hxs], ?_, keyLt_trans hbx hxr, ?_, hl2⟩
          · simpa [hbx] using heq
          · intro y hy
            rcases List.mem_cons.mp hy with hy | hy
            · exact hy ▸ hxr
            · exact hl1 y hy
      · rcases ih b with ⟨heq, hall⟩ | ⟨l1, r, l2, hxs, heq, hbr, hl1, hl2⟩
        · refine Or.inl ⟨by simpa [hbx] using heq, ?_⟩
          intro y hy
          rcases List.mem_cons.mp hy with hy | hy
          · exact hy ▸ hbx
          · exact hall y hy
        · refine Or.inr ⟨x :: l1, r, l2, by simp [hxs], by simpa [hbx] using heq,
            hbr, ?_, hl2⟩
          intro y hy
          rcases List.mem_cons.mp hy with hy | hy
          · exact hy ▸ keyLt_resolve hbx hbr
          · exact hl1 y hy

/-- C7: on a non-empty candidate pool, `max(pool, key = (severity_score,
overlap_ratio))` returns an entry of the pool whose lexicographic key no
entry exceeds, every entry seen before it has a strictly smaller key
(first-seen tie-break), severityRank orders MINOR < MEDIUM < MAJOR <
CRITICAL as 1..4, and on the pool (MEDIUM, 0.2), (CRITICAL, 0.1),
(MAJOR, 0.9) the CRITICAL entry is chosen. -/
theorem C7_candidate_selector :
    (∀ pool : List Candidate, pool ≠ [] →
      ∃ b l1 l2, chooseBest pool = some b ∧ pool = l1 ++ b :: l2 ∧
        (∀ x ∈ pool, ¬ keyLt (candKey b) (candKey x)) ∧
        (∀ x ∈ l1, keyLt (candKey x) (candKey b))) ∧
    (severityScore .MINOR = 1 ∧ severityScore .MEDIUM = 2 ∧
      severityScore .MAJOR = 3 ∧ severityScore .CRITICAL = 4) ∧
    (∀ cM cC cJ : Candidate,
      cM.severity_score = severityScore .MEDIUM → cM.overlap_r = 2/10 →
      cC.severity_score = severityScore .CRITICAL → cC.overlap_r = 1/10 →
      cJ.severity_score = severityScore .MAJOR → cJ.overlap_r = 9/10 →
      chooseBest [cM, cC, cJ] = some cC) := by
  refine ⟨?_, by decide, ?_⟩
  · rintro (_ | ⟨c, cs⟩) hne
    · exact absurd rfl hne
    · rcases foldBest_spec cs c with ⟨heq, hall⟩ | ⟨l1, r, l2, hxs, heq, hcr, hl1, hl2⟩
      · refine ⟨c, [], cs, ?_, by simp, ?_, by simp⟩
        · simp [chooseBest, heq]
        · intro y hy
          rcases List.mem_cons.mp hy with hy | hy
          · subst hy
            exact keyLt_irrefl _
          · exact hall y hy
      · refine ⟨r, c :: l1, l2, ?_, by simp [hxs], ?_, ?_⟩
        · simp [chooseBest, heq]
        · intro y hy
          rcases List.mem_cons.mp hy with hy | hy
          · subst hy
            intro hlt
            exact keyLt_irrefl _ (keyLt_trans hcr hlt)
          · rw [hxs] at hy
            rcases List.mem_append.mp hy with hy | hy
            · intro hlt
              exact keyLt_irrefl _ (keyLt_trans (hl1 y hy) hlt)
            · rcases List.mem_cons.mp hy with hy | hy
              · subst hy
                exact keyLt_irrefl _
              · exact hl2 y hy
        · intro y hy
          rcases List.mem_cons.mp hy with hy | hy
          · exact hy ▸ hcr
          · exact hl1 y hy
  · intro cM cC cJ hM1 hM2 hC1 hC2 hJ1 hJ2
    have h1 : keyLt (candKey cM) (candKey cC) := by
      simp only [keyLt, candKey]
      rw [hM1, hC1]
      exact Or.inl (by decide)
    have h2 : ¬ keyLt (candKey cC) (candKey cJ) := by
      simp only [keyLt, candKey]
      rw [hC1, hJ1]
      push_neg
      exact ⟨by decide, fun h => absurd h (by decide)⟩
    simp [chooseBest, h1, h2]

/-- Concrete MEDIUM/CRITICAL/MAJOR candidates for the selector witness. -/
def wCandM : Candidate :=
  { severity := .MEDIUM, severity_score := 2, overlap_r := 2/10, victims_estimated := 1,
    person_count := 0, collision_detected := false, primary_vehicle_type := none,
    annotated_img := 10 }

def wCandC : Candidate :=
  { severity := .CRITICAL, severity_score := 4, overlap_r := 1/10, victims_estimated := 1,
    person_count := 0, collision_detected := true, primary_vehicle_type := some 0,
    annotated_img := 11 }

def wCandJ : Candidate :=
  { severity := .MAJOR, severity_score := 3, overlap_r := 9/10, victims_estimated := 1,
    person_count := 1, collision_detected := true, primary_vehicle_type := none,
    annotated_img := 12 }

theorem C7_candidate_selector_witness :
    chooseBest [wCandM, wCandC, wCandJ] = some wCandC ∧
      (∃ b l1 l2, chooseBest [wCandM] = some b ∧ [wCandM] = l1 ++ b :: l2 ∧
        (∀ x ∈ [wCandM], ¬ keyLt (candKey b) (candKey x)) ∧
        (∀ x ∈ l1, keyLt (candKey x) (candKey b))) :=
  ⟨C7_candidate_selector.2.2 wCandM wCandC wCandJ rfl rfl rfl rfl rfl rfl,
   C7_candidate_selector.1 [wCandM] (by simp)⟩

lemma boxArea_nonneg (b : Box) : 0 ≤ boxArea b :=
  mul_nonneg (le_max_left 0 _) (le_max_left 0 _)

lemma interArea_nonneg (a b : Box) : 0 ≤ interArea a b :=
  mul_nonneg (le_max_left 0 _) (le_max_left 0 _)

lemma interArea_le_left (a b : Box) : interArea a b ≤ boxArea a := by
  unfold interArea boxArea
  apply mul_le_mul
  · exact max_le_max le_rfl (sub_le_sub (min_le_left _ _) (le_max_left _ _))
  · exact max_le_max le_rfl (sub_le_sub (min_le_left _ _) (le_max_left _ _))
  · exact le_max_left 0 _
  · exact le_max_left 0 _

lemma interArea_le_right (a b : Box) : interArea a b ≤ boxArea b := by
  unfold interArea boxArea
  apply mul_le_mul
  · exact max_le_max le_rfl (sub_le_sub (min_le_right _ _) (le_max_right _ _))
  · exact max_le_max le_rfl (sub_le_sub (min_le_right _ _) (le_max_right _ _))
  · exact le_max_left 0 _
  · exact le_max_left 0 _

lemma interArea_self (b : Box) : interArea b b = boxArea b := by
  unfold interArea boxArea
  rw [min_self, min_self, max_self, max_self]

lemma pairContrib_nonneg (a b : Box) : 0 ≤ pairContrib a b := by
  unfold pairContrib
  split_ifs with h
  · unfold iouOf
    apply div_nonneg (interArea_nonneg a b)
    have := interArea_le_left a b
    linarith [h.2]
  · exact le_refl 0

lemma pairContrib_le_one (a b : Box) : pairContrib a b ≤ 1 := by
  unfold pairContrib
  split_ifs with h
  · unfold iouOf
    have hl := interArea_le_left a b
    have hr := interArea_le_right a b
    have hd : 0 < boxArea a + boxArea b - interArea a b := by linarith [h.1]
    rw [div_le_one hd]
    linarith
  · exact zero_le_one

lemma pairContrib_zero_left {a : Box} (hA : boxArea a ≤ 0) (b : Box) : pairContrib a b = 0 := by
  unfold pairContrib
  rw [if_neg]
  rintro ⟨h1, -⟩
  exact absurd hA (not_le.mpr h1)

lemma pairContrib_zero_right (a : Box) {b : Box} (hB : boxArea b ≤ 0) : pairContrib a b = 0 := by
  unfold pairContrib
  rw [if_neg]
  rintro ⟨-, h2⟩
  exact absurd hB (not_le.mpr h2)

lemma innerUpd_eq {a : Box} (ha : 0 < boxArea a) {m : ℚ} (hm : 0 ≤ m) (b : Box) :
    innerUpd a m b = max m (pairContrib a b) := by
  simp only [innerUpd]
  split_ifs with hb hi hu hlt
  · rw [pairContrib_zero_right a hb]
    exact (max_eq_left hm).symm
  · have hB : 0 < boxArea b := not_le.mp hb
    have h0 : interArea a b = 0 := le_antisymm hi (interArea_nonneg a b)
    have hc : pairContrib a b = 0 := by
      unfold pairContrib iouOf
      rw [if_pos ⟨ha, hB⟩, h0, zero_div]
    rw [hc]
    exact (max_eq_left hm).symm
  · exfalso
    have hB : 0 < boxArea b := not_le.mp hb
    have := interArea_le_left a b
    linarith
  · have hB : 0 < boxArea b := not_le.mp hb
    have hc : pairContrib a b = iouOf a b := by
      unfold pairContrib
      rw [if_pos ⟨ha, hB⟩]
    rw [hc]
    unfold iouOf
    exact (max_eq_right (le_of_lt hlt)).symm
  · have hB : 0 < boxArea b := not_le.mp hb
    have hc : pairContrib a b = iouOf a b := by
      unfold pairContrib
      rw [if_pos ⟨ha, hB⟩]
    rw [hc]
    unfold iouOf
    exact (max_eq_left (not_lt.mp hlt)).symm

lemma le_foldl_maxf {α : Type} (c : α → ℚ) :
    ∀ (l : List α) (m : ℚ), m ≤ l.foldl (fun m x => max m (c x)) m
  | [], m => le_refl m
  | x :: l, m => le_trans (le_max_left m (c x)) (le_foldl_maxf c l (max m (c x)))

lemma innerFold_eq {a : Box} (ha : 0 < boxArea a) :
    ∀ (rest : List Box) {m : ℚ}, 0 ≤ m →
      rest.foldl (innerUpd a) m = rest.foldl (fun m b => max m (pairContrib a b)) m := by
  intro rest
  induction rest with
  | nil => intro m hm; rfl
  | cons b l ih =>
      intro m hm
      simp only [List.foldl_cons]
      rw [innerUpd_eq ha hm b]
      exact ih (le_trans hm (le_max_left m _))

lemma foldl_contrib_degenerate {a : Box} (hA : boxArea a ≤ 0) :
    ∀ (rest : List Box) {m : ℚ}, 0 ≤ m →
      rest.foldl (fun m b => max m (pairContrib a b)) m = m := by
  intro rest
  induction rest with
  | nil => intro m hm; rfl
  | cons b l ih =>
      intro m hm
      simp only [List.foldl_cons]
      rw [pairContrib_zero_left hA b, max_eq_left hm]
      exact ih hm

lemma outerLoop_eq :
    ∀ (boxes : List Box) {m : ℚ}, 0 ≤ m →
      outerLoop boxes m = (allPairs boxes).foldl (fun m p => max m (pairContrib p.1 p.2)) m := by
  intro boxes
  induction boxes with
  | nil => intro m hm; rfl
  | cons a rest ih =>
      intro m hm
      simp only [outerLoop, allPairs, List.foldl_append, List.foldl_map]
      split_ifs with ha
      · rw [foldl_contrib_degenerate ha rest hm]
        exact ih hm
      · rw [innerFold_eq (not_le.mp ha) rest hm]
        exact ih (le_trans hm (le_foldl_maxf _ rest m))

lemma foldl_pair_le_one :
    ∀ (l : List (Box × Box)) {m : ℚ}, m ≤ 1 →
      l.foldl (fun m p => max m (pairContrib p.1 p.2)) m ≤ 1 := by
  intro l
  induction l with
  | nil => intro m hm; exact hm
  | cons p l ih => intro m hm; exact ih (max_le hm (pairContrib_le_one p.1 p.2))

/-- C8: `compute_max_overlap_ratio` equals the maximum IoU over all
unordered pairs of positive-area boxes (0 when there is no such pair or
none intersects — degenerate boxes are skipped), its value always lies in
[0, 1], it is 0 for fewer than two boxes, and it is 1 for two identical
positive-area boxes. -/
theorem C8_compute_max_overlap_correct :
    (∀ boxes : List Box, compute_max_overlap boxes = specMaxIoU boxes) ∧
      (∀ boxes : List Box,
        0 ≤ compute_max_overlap boxes ∧ compute_max_overlap boxes ≤ 1) ∧
      (∀ boxes : List Box, boxes.length < 2 → compute_max_overlap boxes = 0) ∧
      (∀ b : Box, 0 < boxArea b → compute_max_overlap [b, b] = 1) := by
  have hmain : ∀ boxes : List Box, compute_max_overlap boxes = specMaxIoU boxes := by
    intro boxes
    unfold compute_max_overlap specMaxIoU
    split_ifs with h
    · match boxes, h with
      | [], _ => rfl
      | [a], _ => rfl
    · exact outerLoop_eq boxes (le_refl 0)
  refine ⟨hmain, ?_, ?_, ?_⟩
  · intro boxes
    rw [hmain]
    unfold specMaxIoU
    exact ⟨le_foldl_maxf _ (allPairs boxes) 0, foldl_pair_le_one (allPairs boxes) (by norm_num)⟩
  · intro boxes h
    unfold compute_max_overlap
    rw [if_pos h]
  · intro b hb
    rw [hmain]
    have hc : pairContrib b b = 1 := by
      unfold pairContrib iouOf
      rw [if_pos ⟨hb, hb⟩, interArea_self]
      have he : boxArea b + boxArea b - boxArea b = boxArea b := by ring
      rw [he, div_self (ne_of_gt hb)]
    have hp : allPairs [b, b] = [(b, b)] := rfl
    unfold specMaxIoU
    rw [hp]
    simp [hc]

theorem C8_compute_max_overlap_correct_witness :
    (0 : ℚ) < boxArea ⟨0, 0, 1, 1⟩ ∧
      compute_max_overlap [⟨0, 0, 1, 1⟩, ⟨0, 0, 1, 1⟩] = 1 ∧
      compute_max_overlap [⟨0, 0, 1, 1⟩] = 0 :=
  ⟨by norm_num [boxArea],
   C8_compute_max_overlap_correct.2.2.2 ⟨0, 0, 1, 1⟩ (by norm_num [boxArea]),
   C8_compute_max_overlap_correct.2.2.1 [⟨0, 0, 1, 1⟩] (by simp)⟩

lemma step_in_cooldown (fr : FrameObs) (st : CameraState)
    (hl : st.last_alert_time ≠ 0)
    (ht : fr.now_ts - st.last_alert_time < ALERT_COOLDOWN_SECONDS) :
    detect_accident_step fr st = ⟨(preStep fr st).1, 0, [], (preStep fr st).2, none⟩ :=
  step_no_finalize fr st (by
    rintro ⟨-, h0 | hle⟩
    · exact hl h0
    · exact absurd ht (not_lt.mpr hle))

/-- While the cooldown holds (so no new incident can be finalized), the
post-capture countdown drains one snapshot per incoming frame, with
consecutive indices under the active incident tag. -/
lemma postDrain (tg : ℚ) :
    ∀ (fs : List FrameObs) (st : CameraState),
      st.current_incident_tag = some tg →
      st.last_alert_time ≠ 0 →
      (∀ g ∈ fs, g.now_ts - st.last_alert_time < ALERT_COOLDOWN_SECONDS) →
      postTrace st fs =
        (List.range (min st.post_capture_remaining fs.length)).map
          (fun i => (tg, st.post_capture_counter + i)) ∧
        (runState st fs).post_capture_remaining = st.post_capture_remaining - fs.length := by
  intro fs
  induction fs with
  | nil =>
      intro st htag hl hcool
      exact ⟨by simp [postTrace_nil], by simp [runState]⟩
  | cons g fs ih =>
      intro st htag hl hcool
      have hg := hcool g (List.mem_cons_self g fs)
      have hstep := step_in_cooldown g st hl hg
      have hst : (detect_accident_step g st).state = (preStep g st).1 := by rw [hstep]
      have hps : (detect_accident_step g st).postSaved = (preStep g st).2 := by rw [hstep]
      have htag' : (preStep g st).1.current_incident_tag = some tg := by
        rw [preStep_tag]; exact htag
      have hl' : (preStep g st).1.last_alert_time ≠ 0 := by
        rw [preStep_last]; exact hl
      have hcool' : ∀ x ∈ fs,
          x.now_ts - (preStep g st).1.last_alert_time < ALERT_COOLDOWN_SECONDS := by
        rw [preStep_last]
        exact fun x hx => hcool x (List.mem_cons_of_mem g hx)
      obtain ⟨ihT, ihR⟩ := ih (preStep g st).1 htag' hl' hcool'
      have hrun : runState st (g :: fs) = runState (preStep g st).1 fs := by
        show runState (detect_accident_step g st).state fs = _
        rw [hst]
      rw [postTrace_cons, hps, hst]
      rcases hrem : st.post_capture_remaining with _ | r
      · have hposts : (preStep g st).2 = [] := by
          rw [preStep_posts, htag]
          simp [hrem]
        have hrem' : (preStep g st).1.post_capture_remaining = 0 := by
          rw [preStep_remaining, hrem]
          simp
        constructor
        · rw [hposts, ihT, hrem']
          simp
        · rw [hrun, ihR, hrem']
          simp
      · have hposts : (preStep g st).2 = [(tg, st.post_capture_counter)] := by
          rw [preStep_posts, htag]
          simp [hrem]
        have hrem' : (preStep g st).1.post_capture_remaining = r := by
          rw [preStep_remaining, hrem, if_pos ⟨by rw [htag]; simp, Nat.succ_pos r⟩]
          omega
        have hpcc' : (preStep g st).1.post_capture_counter = st.post_capture_counter + 1 := by
          rw [preStep_pcc, hrem, if_pos ⟨by rw [htag]; simp, Nat.succ_pos r⟩]
        constructor
        · rw [hposts, ihT, hrem', hpcc']
          have hfun : (fun i => (tg, st.post_capture_counter + 1 + i)) =
              ((fun i => (tg, st.post_capture_counter + i)) ∘ Nat.succ) := by
            funext i
            simp only [Function.comp_apply, Prod.mk.injEq, true_and]
            omega
          rw [List.length_cons, Nat.succ_min_succ, List.range_succ_eq_map, List.map_cons,
            List.map_map, Nat.add_zero, hfun]
          rfl
        · rw [hrun, ihR, hrem']
          rw [List.length_cons, Nat.succ_sub_succ]

/-- C9: once an incident is confirmed and reported, each of the next
`POST_CAPTURE_FRAMES` incoming frames (cooldown preventing any new
finalization) is persisted as "after" evidence under the new incident's
tag with indices 0, 1, ... in arrival order, the countdown dropping by
one per persisted frame; after that many frames the countdown is 0 and no
further frame is persisted. -/
theorem C9_post_capture_drain (st : CameraState) (fr : FrameObs) (fs : List FrameObs)
    (hf : flagged fr = true)
    (hc : ACCIDENT_CONFIRM_FRAMES ≤ st.accident_counter + 1)
    (hooc : outOfCooldown fr st)
    (hnz : fr.now_ts ≠ 0)
    (hcool : ∀ g ∈ fs, g.now_ts - fr.now_ts < ALERT_COOLDOWN_SECONDS) :
    postTrace (detect_accident_step fr st).state fs =
        (List.range (min POST_CAPTURE_FRAMES fs.length)).map (fun i => (fr.now_ts, i)) ∧
      (runState (detect_accident_step fr st).state fs).post_capture_remaining =
        POST_CAPTURE_FRAMES - fs.length := by
  have hc' : ACCIDENT_CONFIRM_FRAMES ≤ postCounter fr st := by
    rw [postCounter_pos st hf]; exact hc
  rw [step_finalize fr st hc' hooc, finalizeStep_state]
  obtain ⟨hT, hR⟩ :=
    postDrain fr.now_ts fs
      { (preStep fr st).1 with current_incident_tag := some fr.now_ts
                               post_capture_remaining := POST_CAPTURE_FRAMES
                               post_capture_counter := 0
                               last_alert_time := fr.now_ts
                               accident_counter := 0
                               candidate_frames := [] }
      rfl hnz (by intro g hg; exact hcool g hg)
  refine ⟨?_, hR⟩
  rw [hT]
  simp

theorem C9_post_capture_drain_witness :
    postTrace (detect_accident_step (wFlagAt 1000)
        { initCameraState with accident_counter := 2 }).state
        (List.replicate 26 (wPlainAt 1001)) =
      (List.range (min POST_CAPTURE_FRAMES (List.replicate 26 (wPlainAt 1001)).length)).map
        (fun i => ((wFlagAt 1000).now_ts, i)) ∧
    (runState (detect_accident_step (wFlagAt 1000)
        { initCameraState with accident_counter := 2 }).state
        (List.replicate 26 (wPlainAt 1001))).post_capture_remaining =
      POST_CAPTURE_FRAMES - (List.replicate 26 (wPlainAt 1001)).length :=
  C9_post_capture_drain { initCameraState with accident_counter := 2 }
    (wFlagAt 1000) (List.replicate 26 (wPlainAt 1001))
    (by decide) (by decide) (Or.inl rfl)
    (by norm_num [wFlagAt, wFlagFrame])
    (by
      intro g hg
      rw [List.eq_of_mem_replicate hg]
      norm_num [wPlainAt, wPlainFrame, wFlagAt, wFlagFrame, ALERT_COOLDOWN_SECONDS])

lemma lastN_eq_reverse_take (n : Nat) (xs : List α) :
    lastN n xs = (xs.reverse.take n).reverse := by
  unfold lastN
  rw [List.take_reverse, List.reverse_reverse]

lemma lastN_of_le {n : Nat} {xs : List α} (h : xs.length ≤ n) : lastN n xs = xs := by
  unfold lastN
  rw [Nat.sub_eq_zero_of_le h, List.drop_zero]

lemma lastN_length_le (n : Nat) (xs : List α) : (lastN n xs).length ≤ n := by
  unfold lastN
  rw [List.length_drop]
  omega

lemma lastN_absorb (n : Nat) (ys zs : List α) :
    lastN n (lastN n ys ++ zs) = lastN n (ys ++ zs) := by
  rw [lastN_eq_reverse_take n ys, lastN_eq_reverse_take, lastN_eq_reverse_take]
  rw [List.reverse_append, List.reverse_reverse, List.reverse_append]
  rw [List.take_append_eq_append_take, List.take_append_eq_append_take, List.take_take]
  rw [Nat.min_eq_left (Nat.sub_le _ _)]

lemma dequeAppend_eq_lastN (cap : Nat) (xs : List α) (x : α) :
    dequeAppend cap xs x = lastN cap (xs ++ [x]) := by
  simp only [dequeAppend, lastN]
  split_ifs with h
  · rfl
  · have h0 : (xs ++ [x]).length - cap = 0 := by omega
    rw [h0, List.drop_zero]

lemma dequeAppend_length (cap : Nat) (xs : List α) (x : α) :
    (dequeAppend cap xs x).length = min cap (xs.length + 1) := by
  rw [dequeAppend_eq_lastN]
  unfold lastN
  rw [List.length_drop, List.length_append, List.length_cons, List.length_nil]
  omega

/-- Under cooldown (no finalization possible), a run of accident-flagged
frames leaves the candidate pool holding exactly the most recent
`CANDIDATE_POOL_CAP` candidates of everything accumulated so far. -/
lemma pool_run_flagged :
    ∀ (fs : List FrameObs) (st : CameraState),
      st.last_alert_time ≠ 0 →
      (∀ g ∈ fs, flagged g = true) →
      (∀ g ∈ fs, g.now_ts - st.last_alert_time < ALERT_COOLDOWN_SECONDS) →
      st.candidate_frames.length ≤ CANDIDATE_POOL_CAP →
      (runState st fs).candidate_frames =
        lastN CANDIDATE_POOL_CAP (st.candidate_frames ++ fs.map mkCandidate) := by
  intro fs
  induction fs with
  | nil =>
      intro st hl hflag hcool hlen
      simp only [runState, List.map_nil, List.append_nil]
      exact (lastN_of_le hlen).symm
  | cons g fs ih =>
      intro st hl hflag hcool hlen
      have hg := hcool g (List.mem_cons_self g fs)
      have hstep := step_in_cooldown g st hl hg
      have hst : (detect_accident_step g st).state = (preStep g st).1 := by rw [hstep]
      have hpool : (preStep g st).1.candidate_frames =
          dequeAppend CANDIDATE_POOL_CAP st.candidate_frames (mkCandidate g) := by
        rw [preStep_pool, if_pos]
        have := hflag g (List.mem_cons_self g fs)
        unfold flagged at this
        exact this
      have hrun : runState st (g :: fs) = runState (preStep g st).1 fs := by
        show runState (detect_accident_step g st).state fs = _
        rw [hst]
      rw [hrun]
      rw [ih (preStep g st).1
        (by rw [preStep_last]; exact hl)
        (fun x hx => hflag x (List.mem_cons_of_mem g hx))
        (by rw [preStep_last]; exact fun x hx => hcool x (List.mem_cons_of_mem g hx))
        (by rw [hpool, dequeAppend_length]; omega)]
      rw [hpool, dequeAppend_eq_lastN, lastN_absorb]
      rw [List.append_assoc, List.singleton_append, List.map_cons]

/-- C10: the per-stream candidate pool is bounded by 15 entries
(`deque(maxlen=15)`): every call keeps its length ≤ 15; at capacity an
accident-flagged frame evicts the oldest entry FIFO-style; and a streak
of flagged frames kept alive under cooldown suppression leaves the pool
holding exactly the candidates of the 15 most recently flagged frames, so
finalization selects its best frame among only those. -/
theorem C10_candidate_pool_bounded :
    (∀ (st : CameraState) (fr : FrameObs),
        st.candidate_frames.length ≤ CANDIDATE_POOL_CAP →
        (detect_accident_step fr st).state.candidate_frames.length ≤ CANDIDATE_POOL_CAP) ∧
      (∀ (st : CameraState) (fr : FrameObs), flagged fr = true →
        st.candidate_frames.length = CANDIDATE_POOL_CAP →
        (preStep fr st).1.candidate_frames =
          st.candidate_frames.drop 1 ++ [mkCandidate fr]) ∧
      (∀ (st : CameraState) (fs : List FrameObs),
        st.candidate_frames = [] → st.last_alert_time ≠ 0 →
        (∀ g ∈ fs, flagged g = true) →
        (∀ g ∈ fs, g.now_ts - st.last_alert_time < ALERT_COOLDOWN_SECONDS) →
        (runState st fs).candidate_frames =
          (fs.map mkCandidate).drop (fs.length - CANDIDATE_POOL_CAP)) := by
  refine ⟨?_, ?_, ?_⟩
  · intro st fr hlen
    by_cases h : ACCIDENT_CONFIRM_FRAMES ≤ postCounter fr st ∧ outOfCooldown fr st
    · rw [step_finalize fr st h.1 h.2, finalizeStep_state]
      simp [CANDIDATE_POOL_CAP]
    · rw [step_no_finalize fr st h]
      show (preStep fr st).1.candidate_frames.length ≤ CANDIDATE_POOL_CAP
      rw [preStep_pool]
      split_ifs
      · rw [dequeAppend_length]
        omega
      · exact hlen
  · intro st fr hf hlen
    have hflag : frameAccidentFlag fr.collision_detected fr.vehicle_count fr.person_count
        fr.total_danger_detections = true := by
      unfold flagged at hf
      exact hf
    rw [preStep_pool, if_pos hflag]
    simp only [dequeAppend]
    rw [if_pos (by rw [List.length_append, List.length_cons, List.length_nil, hlen]; omega)]
    rw [List.length_append, List.length_cons, List.length_nil, hlen]
    have h1 : CANDIDATE_POOL_CAP + (0 + 1) - CANDIDATE_POOL_CAP = 1 := by omega
    rw [h1, List.drop_append_of_le_length (by rw [hlen]; simp [CANDIDATE_POOL_CAP])]
  · intro st fs hpool hl hflag hcool
    rw [pool_run_flagged fs st hl hflag hcool (by rw [hpool]; simp)]
    rw [hpool, List.nil_append]
    unfold lastN
    rw [List.length_map]

theorem C10_candidate_pool_bounded_witness :
    (detect_accident_step (wFlagAt 1010)
        { initCameraState with candidate_frames := List.replicate 15 wCandM,
                               last_alert_time := 1000 }).state.candidate_frames.length ≤
        CANDIDATE_POOL_CAP ∧
      (preStep (wFlagAt 1010)
        { initCameraState with candidate_frames := List.replicate 15 wCandM,
                               last_alert_time := 1000 }).1.candidate_frames =
        (List.replicate 15 wCandM).drop 1 ++ [mkCandidate (wFlagAt 1010)] ∧
      (runState { initCameraState with last_alert_time := 1000 }
          (List.replicate 20 (wFlagAt 1010))).candidate_frames =
        ((List.replicate 20 (wFlagAt 1010)).map mkCandidate).drop
          ((List.replicate 20 (wFlagAt 1010)).length - CANDIDATE_POOL_CAP) :=
  ⟨C10_candidate_pool_bounded.1
      { initCameraState with candidate_frames := List.replicate 15 wCandM,
                             last_alert_time := 1000 }
      (wFlagAt 1010) (by simp [CANDIDATE_POOL_CAP]),
   C10_candidate_pool_bounded.2.1
      { initCameraState with candidate_frames := List.replicate 15 wCandM,
                             last_alert_time := 1000 }
      (wFlagAt 1010) (by decide) (by simp [CANDIDATE_POOL_CAP]),
   C10_candidate_pool_bounded.2.2
      { initCameraState with last_alert_time := 1000 }
      (List.replicate 20 (wFlagAt 1010)) rfl
      (by norm_num)
      (by
        intro g hg
        rw [List.eq_of_mem_replicate hg]
        decide)
      (by
        intro g hg
        rw [List.eq_of_mem_replicate hg]
        norm_num [wFlagAt, wFlagFrame, ALERT_COOLDOWN_SECONDS])⟩

end SmartAccident
